import Mathlib

/-
Verification of the qml-box2d world wrapper (src/box2dworld.h).

Floating-point values are embedded as rationals (ℚ).  Every constant that
appears in the source (32.0f, 1.0f/32.0f, the float literal behind b2_pi) is
exactly representable as a rational, and the operations the wrapper performs
on them are plain multiplications and divisions, so the rational embedding
is exact wherever the source arithmetic is exact.  In particular the length
scale factor 32 is a power of two, so length conversions are exact even in
IEEE binary floating point.
-/

namespace QmlBox2D

/-- Fixed scale factor, from box2dworld.h line 45: 32 pixels in one meter. -/
def pixelsPerMeter : ℚ := 32

/-- From box2dworld.h line 46: the reciprocal scale factor. -/
def metersPerPixel : ℚ := 1 / pixelsPerMeter

/-- From box2dworld.h line 47: y-axis inverted scale factor. -/
def pixelsPerMeterY : ℚ := -pixelsPerMeter

/-- From box2dworld.h line 48: y-axis inverted reciprocal scale factor. -/
def metersPerPixelY : ℚ := -metersPerPixel

/-- Modelled from the engine header (Box2D's b2Settings.h, not part of this
repository): the constant b2_pi, the float literal 3.14159265359f.  Only its
nonzeroness matters for the round-trip theorems. -/
def b2_pi : ℚ := 3.14159265359

/-- A point in the host UI's (QML) coordinate convention, from QPointF. -/
structure QPointF where
  x : ℚ
  y : ℚ
deriving DecidableEq, Repr

/-- A vector in the engine's (Box2D) coordinate convention, from b2Vec2. -/
structure b2Vec2 where
  x : ℚ
  y : ℚ
deriving DecidableEq, Repr

/-- From box2dworld.h lines 195-198: inverts the y-axis, engine to host. -/
def invertY (vec : b2Vec2) : QPointF :=
  ⟨vec.x, -vec.y⟩

/-- From box2dworld.h lines 203-206: inverts the y-axis, host to engine. -/
def invertYQ (vec : QPointF) : b2Vec2 :=
  ⟨vec.x, -vec.y⟩

/-- From box2dworld.h lines 211-214: converts lengths from Box2D to QML units. -/
def toPixels (length : ℚ) : ℚ :=
  length * pixelsPerMeter

/-- From box2dworld.h lines 219-222: converts lengths from QML to Box2D units. -/
def toMeters (length : ℚ) : ℚ :=
  length * metersPerPixel

/-- From box2dworld.h lines 227-231: converts positions and sizes from Box2D
to QML coordinates. -/
def toPixelsVec (vec : b2Vec2) : QPointF :=
  ⟨vec.x * pixelsPerMeter, vec.y * pixelsPerMeterY⟩

/-- From box2dworld.h lines 236-240: converts positions and sizes from QML
to Box2D coordinates. -/
def toMetersVec (point : QPointF) : b2Vec2 :=
  ⟨point.x * metersPerPixel, point.y * metersPerPixelY⟩

/-- From box2dworld.h lines 245-248: converts angles from Box2D to QML values. -/
def toDegrees (radians : ℚ) : ℚ :=
  -radians * 180 / b2_pi

/-- From box2dworld.h lines 253-256: converts angles from QML to Box2D values. -/
def toRadians (degrees : ℚ) : ℚ :=
  -degrees * b2_pi / 180

/-- Observable events emitted while driving the simulation.  stepAdvance
records one fixed-timestep advance of the engine together with the
parameters it was invoked with; stepped is the post-step signal; preSolve,
solvePass and postSolve describe one constraint-solving pass on contact c. -/
inductive Event where
  | stepAdvance (dt : ℚ) (velIter posIter : ℕ)
  | stepped
  | preSolve (c : ℕ)
  | solvePass (c : ℕ)
  | postSolve (c : ℕ)
deriving DecidableEq, Repr

/-- State of the wrapper world visible through its properties (box2dworld.h
lines 77-80 and the private fields at lines 137-141), plus a counter of
simulation advances performed so far. -/
structure WorldState where
  running : Bool
  timeStep : ℚ
  velocityIterations : ℕ
  positionIterations : ℕ
  advances : ℕ
deriving DecidableEq, Repr

/-- Modelled from the spec: Box2DWorld::step (declared at box2dworld.h line
114; its body lives in box2dworld.cpp, which is not under src/) performs one
fixed-timestep simulation advance with the current timeStep,
velocityIterations and positionIterations, and then emits the stepped
notification. -/
def step (w : WorldState) : WorldState × List Event :=
  ({ w with advances := w.advances + 1 },
   [Event.stepAdvance w.timeStep w.velocityIterations w.positionIterations,
    Event.stepped])

/-- Modelled from the spec: StepDriver::updateCurrentTime (declared at
box2dworld.h line 63; its body lives in box2dworld.cpp, which is not under
src/) is the display-frame callback: while the world is running it requests
exactly one fixed-size simulation advance, and while the world is not
running it does nothing. -/
def updateCurrentTime (w : WorldState) : WorldState × List Event :=
  if w.running then step w else (w, [])

/-- Modelled from the spec: the Box2DWorld constructor (box2dworld.cpp, not
under src/) initializes the timestep to 1/60, the velocity iterations to 8
and the position iterations to 3, as documented at box2dworld.h lines
144-174.  The initial running flag is not documented in the header, so it is
a parameter here; no claim depends on it. -/
def initialWorld (running : Bool) : WorldState :=
  { running := running
    timeStep := 1 / 60
    velocityIterations := 8
    positionIterations := 3
    advances := 0 }

/-- Modelled from the spec: during one simulation advance the engine runs a
sequence of constraint-solving passes (one per contact, identified here by a
natural number); the world emits preSolve immediately before each pass and
postSolve immediately after it. -/
def solveEvents (passes : List ℕ) : List Event :=
  passes.foldr
    (fun c acc => Event.preSolve c :: Event.solvePass c :: Event.postSolve c :: acc)
    []

/-- Kind of an engine-owned object subject to implicit destruction. -/
inductive ObjKind where
  | joint
  | fixture
deriving DecidableEq, Repr

/-- Identity of an engine-owned joint or fixture. -/
structure ObjId where
  kind : ObjKind
  idx : ℕ
deriving DecidableEq, Repr

/-- Events of the engine's destruction-callback protocol: the SayGoodbye
callback delivered to the wrapper, and the freeing of the object's memory. -/
inductive DestrEvent where
  | sayGoodbyeEvt (o : ObjId)
  | freed (o : ObjId)
deriving DecidableEq, Repr

/-- Destruction-listener state: the engine's live joints and fixtures, and
the references held by external wrapper objects (none when the wrapper holds
no reference). -/
structure DestrState where
  live : List ObjId
  refs : List (Option ObjId)
deriving DecidableEq, Repr

/-- Modelled from the spec: Box2DWorld::SayGoodbye (declared at box2dworld.h
lines 111-112; its body lives in box2dworld.cpp, which is not under src/)
clears every external wrapper object's reference to the destroyed joint or
fixture. -/
def sayGoodbye (o : ObjId) (refs : List (Option ObjId)) : List (Option ObjId) :=
  refs.map (fun r => if r = some o then none else r)

/-- Modelled from the spec: the engine's destruction-callback contract (the
engine body is not part of this repository): on implicit destruction of a
joint or fixture the engine invokes the wrapper's SayGoodbye callback
synchronously, and only afterwards frees the underlying memory. -/
def implicitDestroy (s : DestrState) (o : ObjId) : DestrState × List DestrEvent :=
  ({ live := s.live.erase o, refs := sayGoodbye o s.refs },
   [DestrEvent.sayGoodbyeEvt o, DestrEvent.freed o])

/-- The program state outside the conversion helpers' arguments: the wrapper
world and the destruction bookkeeping. -/
structure ProgramState where
  world : WorldState
  destr : DestrState
deriving DecidableEq, Repr

/-- State-passing embedding of toPixels: the body (box2dworld.h lines
211-214) reads only its argument and the compile-time constants and writes
nothing, so it returns its pure value and the state unchanged. -/
def toPixelsRun (s : ProgramState) (l : ℚ) : ℚ × ProgramState :=
  (toPixels l, s)

/-- State-passing embedding of toMeters (box2dworld.h lines 219-222). -/
def toMetersRun (s : ProgramState) (l : ℚ) : ℚ × ProgramState :=
  (toMeters l, s)

/-- State-passing embedding of toDegrees (box2dworld.h lines 245-248). -/
def toDegreesRun (s : ProgramState) (r : ℚ) : ℚ × ProgramState :=
  (toDegrees r, s)

/-- State-passing embedding of toRadians (box2dworld.h lines 253-256). -/
def toRadiansRun (s : ProgramState) (d : ℚ) : ℚ × ProgramState :=
  (toRadians d, s)

/-- State-passing embedding of invertY (box2dworld.h lines 195-198). -/
def invertYRun (s : ProgramState) (v : b2Vec2) : QPointF × ProgramState :=
  (invertY v, s)

/-- From box2dworld.h lines 186-189: clearForces forwards a single call to
the engine (mWorld.ClearForces) and adds nothing of its own.  The engine
primitive is embedded as an oracle: the list of outcomes the engine would
produce on successive invocations (each either normal completion or engine
behaviour ε).  clearForces consumes exactly one oracle entry and returns its
outcome verbatim. -/
def clearForces {ε : Type} (oracle : List (Except ε Unit)) :
    Option (Except ε Unit) × List (Except ε Unit) :=
  (oracle.head?, oracle.tail)

/-- Modelled from the spec: Box2DWorld::step as seen across the engine
boundary (box2dworld.cpp, not under src/) makes a single call to the
engine's Step primitive with the current parameters; it consumes exactly one
oracle entry and returns the engine's outcome verbatim, performing no retry
or recovery. -/
def stepOp {ε : Type} (_w : WorldState) (oracle : List (Except ε Unit)) :
    Option (Except ε Unit) × List (Except ε Unit) :=
  (oracle.head?, oracle.tail)

/-- Modelled from the spec: the timeStep property write (box2dworld.cpp, not
under src/) stores the value; it has no failure path. -/
def setTimeStep (w : WorldState) (v : ℚ) : WorldState :=
  { w with timeStep := v }

/-- Modelled from the spec: the velocityIterations property write
(box2dworld.cpp, not under src/) stores the value; it has no failure path. -/
def setVelocityIterations (w : WorldState) (n : ℕ) : WorldState :=
  { w with velocityIterations := n }

/-- Modelled from the spec: the positionIterations property write
(box2dworld.cpp, not under src/) stores the value; it has no failure path. -/
def setPositionIterations (w : WorldState) (n : ℕ) : WorldState :=
  { w with positionIterations := n }

/-- Modelled from the spec: the running property write (box2dworld.cpp, not
under src/) stores the value; it has no failure path. -/
def setRunning (w : WorldState) (b : Bool) : WorldState :=
  { w with running := b }

end QmlBox2D

namespace QmlBox2D

/-- C2: for every length L, converting from engine units to host units and
back recovers L (exactly, hence within any floating-point tolerance), and
likewise in the opposite direction. -/
theorem length_roundtrip (L : ℚ) :
    toMeters (toPixels L) = L ∧ toPixels (toMeters L) = L := by
  constructor <;>
    simp [toMeters, toPixels, pixelsPerMeter, metersPerPixel]

/-- C3: the unit conversion uses the single fixed scale factor 32 for all
lengths, the y component of a converted position is negated relative to the
uniform scale, and converted angles are negated: toDegrees r = -r * 180 / pi
and toRadians d = -d * pi / 180. -/
theorem conversion_scale_and_sign (L r d : ℚ) (v : b2Vec2) :
    toPixels L = L * pixelsPerMeter ∧
    pixelsPerMeter = 32 ∧
    (toPixelsVec v).x = pixelsPerMeter * v.x ∧
    (toPixelsVec v).y = -pixelsPerMeter * v.y ∧
    toDegrees r = -r * 180 / b2_pi ∧
    toRadians d = -d * b2_pi / 180 := by
  refine ⟨rfl, rfl, ?_, ?_, rfl, rfl⟩ <;>
    simp [toPixelsVec, pixelsPerMeterY] <;> ring

/-- C4: angle and position conversions are mutually inverse: round-tripping
an angle through toDegrees/toRadians in either order recovers it, and
round-tripping a position through toPixels/toMeters in either order
recovers it (exactly, hence within any floating-point tolerance). -/
theorem angle_position_roundtrip (A : ℚ) (P : QPointF) (V : b2Vec2) :
    toRadians (toDegrees A) = A ∧
    toDegrees (toRadians A) = A ∧
    toMetersVec (toPixelsVec V) = V ∧
    toPixelsVec (toMetersVec P) = P := by
  have hpi : b2_pi ≠ 0 := by norm_num [b2_pi]
  refine ⟨?_, ?_, ?_, ?_⟩
  · field_simp [toRadians, toDegrees]
  · field_simp [toDegrees, toRadians]
  · cases V with
    | mk x y =>
      simp only [toMetersVec, toPixelsVec, pixelsPerMeter, metersPerPixel,
        pixelsPerMeterY, metersPerPixelY, b2Vec2.mk.injEq]
      constructor <;> ring
  · cases P with
    | mk x y =>
      simp only [toPixelsVec, toMetersVec, pixelsPerMeter, metersPerPixel,
        pixelsPerMeterY, metersPerPixelY, QPointF.mk.injEq]
      constructor <;> ring

/-- C9: invertY is an involution in either direction of the QPointF/b2Vec2
pair, leaves the x component unchanged and negates exactly the y component. -/
theorem invertY_involution (v : b2Vec2) (p : QPointF) :
    invertYQ (invertY v) = v ∧
    invertY (invertYQ p) = p ∧
    (invertY v).x = v.x ∧ (invertY v).y = -v.y ∧
    (invertYQ p).x = p.x ∧ (invertYQ p).y = -p.y := by
  refine ⟨?_, ?_, rfl, rfl, rfl, rfl⟩
  · cases v; simp [invertY, invertYQ]
  · cases p; simp [invertY, invertYQ]

/-- C1: while running is true, a display-frame callback triggers exactly one
fixed-timestep advance — one stepAdvance with the current timeStep,
velocityIterations and positionIterations — followed by exactly one stepped
emission; while running is false, a frame callback performs no advance, emits
nothing and leaves the world unchanged. -/
theorem frame_callback_one_advance (w : WorldState) :
    (w.running = true →
      (updateCurrentTime w).2 =
        [Event.stepAdvance w.timeStep w.velocityIterations w.positionIterations,
         Event.stepped] ∧
      (updateCurrentTime w).1.advances = w.advances + 1) ∧
    (w.running = false →
      (updateCurrentTime w).2 = [] ∧ (updateCurrentTime w).1 = w) := by
  constructor <;> intro h <;> simp [updateCurrentTime, h, step]

/-- Witness for frame_callback_one_advance at a concrete running world and a
concrete paused world. -/
theorem frame_callback_one_advance_witness :
    (updateCurrentTime (initialWorld true)).2 =
      [Event.stepAdvance (1 / 60) 8 3, Event.stepped] ∧
    (updateCurrentTime (initialWorld false)).2 = [] :=
  ⟨((frame_callback_one_advance (initialWorld true)).1 rfl).1,
   ((frame_callback_one_advance (initialWorld false)).2 rfl).1⟩

/-- C5: on implicit destruction of a joint or fixture, the SayGoodbye
callback is delivered strictly before the memory is freed (it is the first
event of the destruction trace, freeing the second), and afterwards no
external wrapper object retains a reference to the destroyed object. -/
theorem destruction_callback_clears_refs (s : DestrState) (o : ObjId) :
    (implicitDestroy s o).2 = [DestrEvent.sayGoodbyeEvt o, DestrEvent.freed o] ∧
    ∀ r ∈ (implicitDestroy s o).1.refs, r ≠ some o := by
  refine ⟨rfl, ?_⟩
  intro r hr
  simp only [implicitDestroy, sayGoodbye, List.mem_map] at hr
  obtain ⟨a, _, rfl⟩ := hr
  by_cases h : a = some o <;> simp [h]

/-- Witness for destruction_callback_clears_refs: destroying joint 0 in a
state where one wrapper references it clears that reference. -/
theorem destruction_callback_clears_refs_witness :
    (none : Option ObjId) ≠ some ⟨ObjKind.joint, 0⟩ :=
  (destruction_callback_clears_refs
      ⟨[⟨ObjKind.joint, 0⟩], [some ⟨ObjKind.joint, 0⟩]⟩
      ⟨ObjKind.joint, 0⟩).2 none (by decide)

/-- C6: for every constraint-solving pass performed during a step, the world
emits preSolve immediately before the pass and postSolve immediately after
it: the i-th pass occupies position 3i+1 of the solve trace, with its
preSolve at position 3i and its postSolve at position 3i+2. -/
theorem presolve_postsolve_bracket (passes : List ℕ) (i : ℕ)
    (h : i < passes.length) :
    (solveEvents passes)[3 * i]? = some (Event.preSolve passes[i]) ∧
    (solveEvents passes)[3 * i + 1]? = some (Event.solvePass passes[i]) ∧
    (solveEvents passes)[3 * i + 2]? = some (Event.postSolve passes[i]) := by
  induction passes generalizing i with
  | nil => exact absurd h (by simp)
  | cons c rest ih =>
    cases i with
    | zero => simp [solveEvents]
    | succ j =>
      have hj : j < rest.length := by simpa using h
      have h3 : 3 * (j + 1) = 3 * j + 1 + 1 + 1 := by ring
      have hrec := ih j hj
      simp only [solveEvents, List.foldr_cons] at hrec ⊢
      rw [h3]
      simpa using hrec

/-- Witness for presolve_postsolve_bracket on a concrete two-pass trace. -/
theorem presolve_postsolve_bracket_witness :
    (solveEvents [5, 7])[4]? = some (Event.solvePass 7) := by
  have h : (1 : ℕ) < ([5, 7] : List ℕ).length := by decide
  have hb := presolve_postsolve_bracket [5, 7] 1 h
  simpa using hb.2.1

/-- C7: the conversion helpers are pure: in the state-passing embedding, two
evaluations on equal inputs return equal results regardless of the program
state they are run in, and each evaluation leaves the program state
unchanged. -/
theorem conversion_helpers_pure (s t : ProgramState) (l₁ l₂ r₁ r₂ d₁ d₂ : ℚ)
    (v₁ v₂ : b2Vec2)
    (hl : l₁ = l₂) (hr : r₁ = r₂) (hd : d₁ = d₂) (hv : v₁ = v₂) :
    ((toPixelsRun s l₁).1 = (toPixelsRun t l₂).1 ∧ (toPixelsRun s l₁).2 = s) ∧
    ((toMetersRun s l₁).1 = (toMetersRun t l₂).1 ∧ (toMetersRun s l₁).2 = s) ∧
    ((toDegreesRun s r₁).1 = (toDegreesRun t r₂).1 ∧ (toDegreesRun s r₁).2 = s) ∧
    ((toRadiansRun s d₁).1 = (toRadiansRun t d₂).1 ∧ (toRadiansRun s d₁).2 = s) ∧
    ((invertYRun s v₁).1 = (invertYRun t v₂).1 ∧ (invertYRun s v₁).2 = s) := by
  subst hl hr hd hv
  exact ⟨⟨rfl, rfl⟩, ⟨rfl, rfl⟩, ⟨rfl, rfl⟩, ⟨rfl, rfl⟩, ⟨rfl, rfl⟩⟩

/-- Witness for conversion_helpers_pure at concrete states and inputs. -/
theorem conversion_helpers_pure_witness :
    (toPixelsRun ⟨initialWorld true, ⟨[], []⟩⟩ 1).2 =
      ⟨initialWorld true, ⟨[], []⟩⟩ :=
  (conversion_helpers_pure ⟨initialWorld true, ⟨[], []⟩⟩
      ⟨initialWorld false, ⟨[], []⟩⟩ 1 1 2 2 3 3 ⟨4, 5⟩ ⟨4, 5⟩
      rfl rfl rfl rfl).1.2

/-- C8: no wrapper operation introduces a failure mode of its own: the
engine-forwarding operations (clearForces, step) consume exactly one engine
outcome and return it verbatim — even when that outcome is an engine error,
no second invocation occurs, so there is no retry or recovery — and the
property writes and conversion helpers always complete normally, producing
exactly the stored value or converted result. -/
theorem wrapper_no_new_failure_modes {ε : Type} (oracle : List (Except ε Unit))
    (w : WorldState) (v L : ℚ) (n m : ℕ) (b : Bool) (s : ProgramState) :
    (clearForces oracle).1 = oracle.head? ∧
    (clearForces oracle).2 = oracle.tail ∧
    (stepOp w oracle).1 = oracle.head? ∧
    (stepOp w oracle).2 = oracle.tail ∧
    (setTimeStep w v).timeStep = v ∧
    (setVelocityIterations w n).velocityIterations = n ∧
    (setPositionIterations w m).positionIterations = m ∧
    (setRunning w b).running = b ∧
    (toPixelsRun s L).2 = s ∧
    (toMetersRun s L).2 = s :=
  ⟨rfl, rfl, rfl, rfl, rfl, rfl, rfl, rfl, rfl, rfl⟩

/-- C10: before any property write the observable defaults are timeStep =
1/60, velocityIterations = 8 and positionIterations = 3, and the conversion
constants satisfy metersPerPixel = 1/pixelsPerMeter with pixelsPerMeter =
32, making toPixels and toMeters exact mutual inverses. -/
theorem default_world_and_constants (r : Bool) (L : ℚ) :
    (initialWorld r).timeStep = 1 / 60 ∧
    (initialWorld r).velocityIterations = 8 ∧
    (initialWorld r).positionIterations = 3 ∧
    metersPerPixel = 1 / pixelsPerMeter ∧
    pixelsPerMeter = 32 ∧
    toPixels (toMeters L) = L ∧
    toMeters (toPixels L) = L := by
  refine ⟨rfl, rfl, rfl, rfl, rfl, ?_, ?_⟩ <;>
    simp [toPixels, toMeters, pixelsPerMeter, metersPerPixel]

end QmlBox2D
